import Mathlib

/-!
Formal model of the simplified XMODEM/CRC protocol engine (xmod.c).

The C source works over 8-bit bytes and 16-bit unsigned integers; the model
uses `Nat` with explicit reductions modulo 256 and 65536 at the points where
the C types truncate.  The process-wide mutable globals (`state`, `retrycount`,
`counter`, `current_crc`, `crc_recv`, `mempos`, `blocknum`,
`last_succeeded_block`, `buffer`) are collected in a `Session` record that is
threaded through every operation.  `uart_putc` output is collected as a
`List Nat` of emitted byte values.  The data buffer is modelled as a total
function `Nat → Nat` so that stores outside the declared capacity
`XMOD_BUFFSIZE` remain observable.
-/

set_option maxRecDepth 100000

/-- Wire control byte: start of header (`X_SOH` in xmod.c). -/
def X_SOH : Nat := 1

/-- Wire control byte: end of transmission. -/
def X_EOT : Nat := 4

/-- Wire control byte: acknowledge. -/
def X_ACK : Nat := 6

/-- Wire control byte: negative acknowledge. -/
def X_NAK : Nat := 21

/-- Wire control byte: end of transmission block. -/
def X_ETB : Nat := 23

/-- Wire control byte: cancel (defined in xmod.c, unused in transitions). -/
def X_CAN : Nat := 24

/-- Default buffer capacity from xmod.c (`#define XMOD_BUFFSIZE 256`). -/
def XMOD_BUFFSIZE : Nat := 256

/-- Maximum retry count from xmod.c (`#define MAXRETRY 15`). -/
def MAXRETRY : Nat := 15

/-- CRC polynomial from xmod.c (`#define POLY 0x1021`). -/
def POLY : Nat := 0x1021

/-- The protocol state enumeration `STATE` of xmod.c. -/
inductive STATE where
  | TRANS_AWAIT
  | TRANS_RUN
  | TRANS_ABORT
  | TRANS_BLOCK
  | TRANS_BLOCK2
  | TRANS_CRC1
  | TRANS_CRC2
  | TRANS_END
deriving DecidableEq, Repr

open STATE

/-- One round of the CRC loop body in `xmod_crc_update`: the 16-bit
accumulator is shifted left (truncating at 16 bits, as the `uint16_t`
assignment does) and, when the top bit was set before the shift, xored
with `POLY`. -/
def crcRound (acc : Nat) : Nat :=
  if acc &&& 0x8000 ≠ 0 then ((acc * 2) % 65536) ^^^ POLY
  else (acc * 2) % 65536

/-- The 8-fold iteration of `crcRound` performed by the `for` loop of
`xmod_crc_update`. -/
def crcRounds : Nat → Nat → Nat
  | 0, acc => acc
  | k + 1, acc => crcRounds k (crcRound acc)

/-- The function `xmod_crc_update(uint16_t CRC_acc, uint8_t CRC_input)` of
xmod.c.  The reductions model the `uint16_t`/`uint8_t` parameter types. -/
def xmod_crc_update (CRC_acc CRC_input : Nat) : Nat :=
  crcRounds 8 ((CRC_acc % 65536) ^^^ (CRC_input % 256) * 256)

/-- Folding `xmod_crc_update` over a byte list from a given accumulator,
as both the receive loop and `xmod_sendblock` do byte by byte. -/
def crcOfList (init : Nat) (l : List Nat) : Nat :=
  l.foldl xmod_crc_update init

/-- The session of one transfer: the process-wide mutable globals of
xmod.c gathered in a record. -/
structure Session where
  state : STATE
  retrycount : Nat
  counter : Nat
  current_crc : Nat
  crc_recv : Nat
  mempos : Nat
  blocknum : Nat
  last_succeeded_block : Nat
  buffer : Nat → Nat

/-- The session as `xmod_download` starts it: the C statics are
zero-initialised, and `xmod_download` additionally sets `mempos = 0`,
`retrycount = 0`, `last_succeeded_block = 0` and `state = TRANS_AWAIT`. -/
def downloadInit (buf : Nat → Nat) : Session :=
  { state := TRANS_AWAIT
    retrycount := 0
    counter := 0
    current_crc := 0
    crc_recv := 0
    mempos := 0
    blocknum := 0
    last_succeeded_block := 0
    buffer := buf }

/-- The receive state machine `handlebyte(char d)` of xmod.c.  The returned
session's `state` field carries the function's return value, mirroring the
assignment `state = handlebyte(uart_getc())` of the download loop; the
second component lists the bytes passed to `uart_putc`.  The entry
reduction `d % 256` models the byte value of the `char` argument. -/
def handlebyte (s : Session) (d0 : Nat) : Session × List Nat :=
  let d := d0 % 256
  if s.state = TRANS_AWAIT ∧ d = X_SOH then
    ({ s with counter := 0, current_crc := 0, state := TRANS_BLOCK }, [])
  else if s.state = TRANS_BLOCK then
    ({ s with blocknum := d, state := TRANS_BLOCK2 }, [])
  else if s.state = TRANS_BLOCK2 then
    if s.blocknum ≠ 255 - d then
      ({ s with state := TRANS_ABORT }, [])
    else if s.blocknum = s.last_succeeded_block then
      ({ s with mempos := (s.mempos + 65536 - 128) % 65536, state := TRANS_RUN }, [])
    else
      ({ s with state := TRANS_RUN }, [])
  else if s.state = TRANS_AWAIT ∧ d = X_EOT then
    ({ s with state := TRANS_END }, [X_ACK, X_ACK])
  else if s.state = TRANS_AWAIT ∧ d = X_ETB then
    ({ s with state := TRANS_END }, [X_ACK])
  else if s.state = TRANS_AWAIT then
    ({ s with state := TRANS_ABORT }, [])
  else if s.state = TRANS_RUN then
    let cnt := s.counter + 1
    let crc := xmod_crc_update s.current_crc d
    let buf := fun i => if i = s.mempos then d else s.buffer i
    let mp := (s.mempos + 1) % 65536
    if cnt = 128 then
      ({ s with counter := cnt, current_crc := crc, buffer := buf, mempos := mp,
                state := TRANS_CRC1 }, [])
    else
      ({ s with counter := cnt, current_crc := crc, buffer := buf, mempos := mp,
                state := TRANS_RUN }, [])
  else if s.state = TRANS_CRC1 then
    ({ s with crc_recv := d * 256, state := TRANS_CRC2 }, [])
  else if s.state = TRANS_CRC2 then
    let cr := s.crc_recv ||| d
    if cr = s.current_crc then
      ({ s with crc_recv := cr, last_succeeded_block := s.blocknum,
                state := TRANS_AWAIT }, [X_ACK])
    else
      ({ s with crc_recv := cr, mempos := (s.mempos + 65536 - 128) % 65536,
                state := TRANS_AWAIT }, [X_NAK])
  else
    ({ s with state := TRANS_RUN }, [])

/-- The byte-consuming part of the `xmod_download` loop: each available byte
is dispatched through `handlebyte` and the loop stops once the state is
`TRANS_ABORT` or `TRANS_END` (remaining bytes are drained unhandled). -/
def xmod_receive : Session → List Nat → Session × List Nat
  | s, [] => (s, [])
  | s, d :: ds =>
    if s.state = TRANS_ABORT ∨ s.state = TRANS_END then (s, [])
    else
      let r := handlebyte s d
      let r2 := xmod_receive r.1 ds
      (r2.1, r.2 ++ r2.2)

/-- The effect on the byte store of the 128 successive `buffer[mempos++] = d`
stores of the `TRANS_RUN` phase: write each listed byte at the running
cursor, the cursor advancing modulo 2^16. -/
def writeBytes : (Nat → Nat) → Nat → List Nat → (Nat → Nat)
  | buf, _, [] => buf
  | buf, pos, d :: ds =>
    writeBytes (fun i => if i = pos then d % 256 else buf i) ((pos + 1) % 65536) ds

/-- The transmit driver `xmod_sendblock()` of xmod.c.  It emits the header,
the 128 buffer bytes at offset `128*(blocknum-1)` (computed in `uint16_t`
arithmetic and defensively reset to 0 when it reaches the capacity) and the
CRC octets, updating the global `current_crc`.  The C function is declared
`STATE` but contains no `return` statement, so no state is produced here;
see `xmod_upload_step` for how its callers consume that missing value. -/
def xmod_sendblock (s : Session) : Session × List Nat :=
  let offset0 := (128 * s.blocknum + 65408) % 65536
  let offset := if XMOD_BUFFSIZE ≤ offset0 then 0 else offset0
  let payload := (List.range 128).map fun p => s.buffer (p + offset) % 256
  let crc := crcOfList 0 payload
  ({ s with current_crc := crc },
   X_SOH :: s.blocknum :: (255 - s.blocknum) :: payload ++ [crc / 256 % 256, crc % 256])

/-- One iteration of the `xmod_upload` loop body when an inbound byte `d0`
is available.  On the handshake byte `C` (67) the C code executes
`state = xmod_sendblock();` although `xmod_sendblock` has no `return`
statement; the parameter `u` stands for that unspecified returned value. -/
def xmod_upload_step (u : STATE) (s : Session) (d0 : Nat) : Session × List Nat :=
  let d := d0 % 256
  if d = 67 then
    let r := xmod_sendblock { s with blocknum := 1 }
    ({ r.1 with state := u }, r.2)
  else if d = X_ACK then
    let b := (s.blocknum + 1) % 256
    if b = XMOD_BUFFSIZE / 128 + 1 then
      ({ s with blocknum := b, state := TRANS_END }, [X_EOT])
    else
      xmod_sendblock { s with blocknum := b }
  else
    xmod_sendblock s

/-- One silent polling iteration of the `xmod_download` loop in which the
1000 ms timeout window has elapsed (`GetMillis() > TIMEOUT_MS`): abort once
the retry counter exceeds `MAXRETRY`, otherwise re-emit the handshake byte
`C` (67) and increment the retry counter. -/
def xmod_download_timeout_step (s : Session) : Session × List Nat :=
  if MAXRETRY < s.retrycount then ({ s with state := TRANS_ABORT }, [])
  else ({ s with retrycount := s.retrycount + 1 }, [67])

/-- Iterating `n` consecutive expired-timeout iterations of the download
loop with no byte ever arriving; the loop stops at a terminal state. -/
def xmod_download_silent : Nat → Session → Session × List Nat
  | 0, s => (s, [])
  | n + 1, s =>
    if s.state = TRANS_ABORT ∨ s.state = TRANS_END then (s, [])
    else
      let r := xmod_download_timeout_step s
      let r2 := xmod_download_silent n r.1
      (r2.1, r.2 ++ r2.2)

/-- The 132 bytes of one wire frame: start of header, block number, its
complement, 128 payload bytes, CRC high and low octets. -/
def frameBytes (n : Nat) (payload : List Nat) (hi lo : Nat) : List Nat :=
  X_SOH :: n :: (255 - n) :: (payload ++ [hi, lo])

/-- The 128 payload bytes of block `b` as `xmod_sendblock` reads them from
the buffer at offset `128*(b-1)`. -/
def blockPayload (buf : Nat → Nat) (b : Nat) : List Nat :=
  (List.range 128).map fun p => buf (p + 128 * (b - 1)) % 256

/-- The full frame `xmod_sendblock` emits for block `b` when the block's
offset lies inside the buffer. -/
def sendFrame (buf : Nat → Nat) (b : Nat) : List Nat :=
  X_SOH :: b :: (255 - b) :: blockPayload buf b ++
    [crcOfList 0 (blockPayload buf b) / 256 % 256, crcOfList 0 (blockPayload buf b) % 256]

/-- The CRC step as the specification words it (CRC-16/CCITT-FALSE step,
MSB first, no reflection): one round shifts the 16-bit accumulator left and
xors in the polynomial `0x1021` exactly when the top bit was set before the
shift.  Stated over the spec's algorithm description for comparison with the
source function `xmod_crc_update`. -/
def crc_spec_round (acc : Nat) : Nat :=
  if acc.testBit 15 then ((acc * 2) % 65536) ^^^ 0x1021 else (acc * 2) % 65536

/-- The spec's account of one CRC update: xor the input byte shifted into
the high octet into the accumulator, then perform 8 rounds. -/
def crc_spec_step (a b : Nat) : Nat :=
  crc_spec_round^[8] (a ^^^ b * 256)

lemma crcRound_eq_spec (acc : Nat) : crcRound acc = crc_spec_round acc := by
  have h := Nat.and_two_pow acc 15
  norm_num at h
  rcases hb : acc.testBit 15 with _ | _ <;>
    simp [crcRound, crc_spec_round, POLY, hb, hb ▸ h]

lemma crcRounds_eq_iterate : ∀ (k x : Nat), crcRounds k x = crc_spec_round^[k] x := by
  intro k
  induction k with
  | zero => intro x; rfl
  | succ k ih =>
    intro x
    rw [crcRounds, Function.iterate_succ_apply, crcRound_eq_spec, ih]

lemma crc_update_eq_spec (a b : Nat) (ha : a < 65536) (hb : b < 256) :
    xmod_crc_update a b = crc_spec_step a b := by
  rw [xmod_crc_update, crc_spec_step, Nat.mod_eq_of_lt ha, Nat.mod_eq_of_lt hb,
    crcRounds_eq_iterate]

lemma crc_update_mask (a b : Nat) : xmod_crc_update a (b % 256) = xmod_crc_update a b := by
  rw [xmod_crc_update, xmod_crc_update, Nat.mod_mod_of_dvd _ (dvd_refl 256)]

lemma xmod_receive_append (l1 l2 : List Nat) : ∀ s : Session,
    xmod_receive s (l1 ++ l2) =
      ((xmod_receive (xmod_receive s l1).1 l2).1,
       (xmod_receive s l1).2 ++ (xmod_receive (xmod_receive s l1).1 l2).2) := by
  induction l1 with
  | nil => intro s; simp [xmod_receive]
  | cons d ds ih =>
    intro s
    by_cases h : s.state = TRANS_ABORT ∨ s.state = TRANS_END
    · cases l2 <;> simp [xmod_receive, h]
    · simp only [List.cons_append, xmod_receive, if_neg h, List.append_eq]
      rw [ih]
      simp [List.append_assoc]

lemma receive_header (s : Session) (n : Nat) (hs : s.state = TRANS_AWAIT) (hn : n < 256) :
    xmod_receive s [X_SOH, n, 255 - n] =
      ({ s with state := TRANS_RUN,
                counter := 0,
                current_crc := 0,
                blocknum := n,
                mempos := (if n = s.last_succeeded_block
                           then (s.mempos + 65536 - 128) % 65536 else s.mempos) }, []) := by
  have h2 : n % 256 = n := Nat.mod_eq_of_lt hn
  have h3 : (255 - n) % 256 = 255 - n := Nat.mod_eq_of_lt (by omega)
  have h4 : 255 - (255 - n) = n := by omega
  obtain ⟨st, rc, cnt, crc, crcv, mp, bn, lsb, buf⟩ := s
  simp only at hs
  subst hs
  simp only [xmod_receive, handlebyte, X_SOH, h2, h3, h4]
  norm_num
  by_cases hdup : n = lsb <;> simp [hdup]

lemma xmod_receive_cons (s : Session) (d : Nat) (ds : List Nat)
    (h1 : s.state ≠ TRANS_ABORT) (h2 : s.state ≠ TRANS_END) :
    xmod_receive s (d :: ds) =
      ((xmod_receive (handlebyte s d).1 ds).1,
       (handlebyte s d).2 ++ (xmod_receive (handlebyte s d).1 ds).2) := by
  simp [xmod_receive, h1, h2]

lemma xmod_receive_run (l : List Nat) : ∀ (s : Session),
    s.state = TRANS_RUN → s.counter + l.length ≤ 128 → s.counter < 128 →
    s.mempos < 65536 →
    xmod_receive s l =
      ({ s with state := (if s.counter + l.length = 128 then TRANS_CRC1 else TRANS_RUN),
                counter := s.counter + l.length,
                current_crc := crcOfList s.current_crc l,
                buffer := writeBytes s.buffer s.mempos l,
                mempos := (s.mempos + l.length) % 65536 }, []) := by
  induction l with
  | nil =>
    intro s hs hle hlt hm
    obtain ⟨st, rc, cnt, crc, crcv, mp, bn, lsb, buf⟩ := s
    simp only [List.length_nil] at hs hle hlt hm ⊢
    subst hs
    simp [xmod_receive, crcOfList, writeBytes, Nat.mod_eq_of_lt hm, Nat.ne_of_lt hlt]
  | cons d ds ih =>
    intro s hs hle hlt hm
    obtain ⟨st, rc, cnt, crc, crcv, mp, bn, lsb, buf⟩ := s
    simp only [List.length_cons] at hs hle hlt hm ⊢
    subst hs
    by_cases h128 : cnt + 1 = 128
    · have hds : ds = [] := by
        rw [← List.length_eq_zero]
        omega
      subst hds
      simp [xmod_receive, handlebyte, h128, crcOfList, writeBytes, crc_update_mask]
    · have hb : handlebyte ⟨TRANS_RUN, rc, cnt, crc, crcv, mp, bn, lsb, buf⟩ d =
          (⟨TRANS_RUN, rc, cnt + 1, xmod_crc_update crc d, crcv, (mp + 1) % 65536, bn, lsb,
            fun i => if i = mp then d % 256 else buf i⟩, []) := by
        simp [handlebyte, h128, crc_update_mask]
      rw [xmod_receive_cons _ _ _ (by simp) (by simp), hb]
      rw [ih _ rfl (by simp; omega) (by simp; omega) (by simp [Nat.mod_lt])]
      have e1 : cnt + 1 + ds.length = cnt + (ds.length + 1) := by omega
      have e2 : mp + 1 + ds.length = mp + (ds.length + 1) := by omega
      simp only [crcOfList, writeBytes, Nat.mod_add_mod, e1, e2, List.foldl_cons,
        List.nil_append]

lemma receive_crcpair (s : Session) (hi lo : Nat) (hs : s.state = TRANS_CRC1)
    (hhi : hi < 256) (hlo : lo < 256) :
    xmod_receive s [hi, lo] =
      (if hi * 256 ||| lo = s.current_crc
       then ({ s with crc_recv := hi * 256 ||| lo,
                      last_succeeded_block := s.blocknum, state := TRANS_AWAIT }, [X_ACK])
       else ({ s with crc_recv := hi * 256 ||| lo,
                      mempos := (s.mempos + 65536 - 128) % 65536,
                      state := TRANS_AWAIT }, [X_NAK])) := by
  obtain ⟨st, rc, cnt, crc, crcv, mp, bn, lsb, buf⟩ := s
  simp only at hs ⊢
  subst hs
  have h1 : hi % 256 = hi := Nat.mod_eq_of_lt hhi
  have h2 : lo % 256 = lo := Nat.mod_eq_of_lt hlo
  by_cases hc : hi * 256 ||| lo = crc <;>
    simp [xmod_receive, handlebyte, h1, h2, hc]

lemma receive_goodframe (s : Session) (n hi lo : Nat) (payload : List Nat)
    (hs : s.state = TRANS_AWAIT) (hm : s.mempos < 65536) (hn : n < 256)
    (hlen : payload.length = 128) (hdup : n ≠ s.last_succeeded_block)
    (hhi : hi < 256) (hlo : lo < 256)
    (hcrc : hi * 256 ||| lo = crcOfList 0 payload) :
    xmod_receive s (frameBytes n payload hi lo) =
      ({ s with state := TRANS_AWAIT,
                counter := 128,
                current_crc := crcOfList 0 payload,
                crc_recv := crcOfList 0 payload,
                blocknum := n,
                last_succeeded_block := n,
                buffer := writeBytes s.buffer s.mempos payload,
                mempos := (s.mempos + 128) % 65536 }, [X_ACK]) := by
  have hfr : frameBytes n payload hi lo = [X_SOH, n, 255 - n] ++ (payload ++ [hi, lo]) := by
    simp [frameBytes]
  obtain ⟨st, rc, cnt, crc, crcv, mp, bn, lsb, buf⟩ := s
  simp only at hs hm hdup ⊢
  subst hs
  rw [hfr, xmod_receive_append, receive_header _ n rfl hn]
  simp only [if_neg hdup]
  rw [xmod_receive_append, xmod_receive_run payload _ rfl (by simp [hlen]) (by norm_num) hm]
  simp only [hlen]
  norm_num
  rw [receive_crcpair _ hi lo rfl hhi hlo]
  simp [hcrc]

lemma receive_badframe (s : Session) (n hi lo : Nat) (payload : List Nat)
    (hs : s.state = TRANS_AWAIT) (hm : s.mempos < 65536) (hn : n < 256)
    (hlen : payload.length = 128) (hdup : n ≠ s.last_succeeded_block)
    (hhi : hi < 256) (hlo : lo < 256)
    (hcrc : hi * 256 ||| lo ≠ crcOfList 0 payload) :
    xmod_receive s (frameBytes n payload hi lo) =
      ({ s with state := TRANS_AWAIT,
                counter := 128,
                current_crc := crcOfList 0 payload,
                crc_recv := hi * 256 ||| lo,
                blocknum := n,
                buffer := writeBytes s.buffer s.mempos payload,
                mempos := s.mempos }, [X_NAK]) := by
  have hfr : frameBytes n payload hi lo = [X_SOH, n, 255 - n] ++ (payload ++ [hi, lo]) := by
    simp [frameBytes]
  obtain ⟨st, rc, cnt, crc, crcv, mp, bn, lsb, buf⟩ := s
  simp only at hs hm hdup ⊢
  subst hs
  rw [hfr, xmod_receive_append, receive_header _ n rfl hn]
  simp only [if_neg hdup]
  rw [xmod_receive_append, xmod_receive_run payload _ rfl (by simp [hlen]) (by norm_num) hm]
  simp only [hlen]
  norm_num
  rw [receive_crcpair _ hi lo rfl hhi hlo]
  simp [hcrc]
  omega

lemma receive_dupframe (s : Session) (n hi lo : Nat) (payload : List Nat)
    (hs : s.state = TRANS_AWAIT) (hm1 : 128 ≤ s.mempos) (hm : s.mempos < 65536)
    (hn : n < 256)
    (hlen : payload.length = 128) (hdup : n = s.last_succeeded_block)
    (hhi : hi < 256) (hlo : lo < 256)
    (hcrc : hi * 256 ||| lo = crcOfList 0 payload) :
    xmod_receive s (frameBytes n payload hi lo) =
      ({ s with state := TRANS_AWAIT,
                counter := 128,
                current_crc := crcOfList 0 payload,
                crc_recv := crcOfList 0 payload,
                blocknum := n,
                last_succeeded_block := n,
                buffer := writeBytes s.buffer (s.mempos - 128) payload,
                mempos := s.mempos }, [X_ACK]) := by
  have hfr : frameBytes n payload hi lo = [X_SOH, n, 255 - n] ++ (payload ++ [hi, lo]) := by
    simp [frameBytes]
  obtain ⟨st, rc, cnt, crc, crcv, mp, bn, lsb, buf⟩ := s
  simp only at hs hm1 hm hdup ⊢
  subst hs
  rw [hfr, xmod_receive_append, receive_header _ n rfl hn]
  simp only [if_pos hdup]
  have e1 : (mp + 65536 - 128) % 65536 = mp - 128 := by omega
  rw [e1]
  rw [xmod_receive_append,
      xmod_receive_run payload _ rfl (by simp [hlen]) (by norm_num) (by simp; omega)]
  simp only [hlen]
  norm_num
  rw [receive_crcpair _ hi lo rfl hhi hlo]
  have e2 : (mp - 128 + 128) % 65536 = mp := by omega
  simp [hcrc, e2, hdup]

lemma writeBytes_out (l : List Nat) : ∀ (buf : Nat → Nat) (pos i : Nat),
    pos + l.length < 65536 → (i < pos ∨ pos + l.length ≤ i) →
    writeBytes buf pos l i = buf i := by
  induction l with
  | nil => intro buf pos i h1 h2; rfl
  | cons d ds ih =>
    intro buf pos i h1 h2
    simp only [List.length_cons] at h1 h2
    rw [writeBytes, show (pos + 1) % 65536 = pos + 1 from Nat.mod_eq_of_lt (by omega)]
    rw [ih _ (pos + 1) i (by omega) (by omega)]
    rw [if_neg (by omega)]

lemma writeBytes_get (l : List Nat) : ∀ (buf : Nat → Nat) (pos i : Nat),
    pos + l.length < 65536 → pos ≤ i → i < pos + l.length →
    writeBytes buf pos l i = l.getD (i - pos) 0 % 256 := by
  induction l with
  | nil =>
    intro buf pos i h1 h2 h3
    simp only [List.length_nil, Nat.add_zero] at h3
    exact absurd h3 (by omega)
  | cons d ds ih =>
    intro buf pos i h1 h2 h3
    simp only [List.length_cons] at h1 h3
    rw [writeBytes, show (pos + 1) % 65536 = pos + 1 from Nat.mod_eq_of_lt (by omega)]
    by_cases hip : i = pos
    · subst hip
      rw [writeBytes_out ds _ _ _ (by omega) (by omega)]
      simp
    · rw [ih _ (pos + 1) i (by omega) (by omega) (by omega)]
      have e : i - pos = (i - (pos + 1)) + 1 := by omega
      rw [e]
      simp

lemma map_range_getD (l : List Nat) (k : Nat) (hk : l.length = k) :
    (List.range k).map (fun p => l.getD p 0) = l := by
  subst hk
  apply List.ext_getElem
  · simp
  · intro i h1 h2
    simp [List.getD_eq_getElem?_getD, List.getElem?_eq_getElem h2]

lemma sendblock_frame (s : Session) (hb1 : 1 ≤ s.blocknum)
    (hb2 : s.blocknum ≤ XMOD_BUFFSIZE / 128) :
    xmod_sendblock s =
      ({ s with current_crc := crcOfList 0 (blockPayload s.buffer s.blocknum) },
       sendFrame s.buffer s.blocknum) := by
  have hb2' : s.blocknum ≤ 2 := by simpa [XMOD_BUFFSIZE] using hb2
  have e : (128 * s.blocknum + 65408) % 65536 = 128 * (s.blocknum - 1) := by omega
  have hlt : ¬ (XMOD_BUFFSIZE ≤ 128 * (s.blocknum - 1)) := by
    simp only [XMOD_BUFFSIZE]
    omega
  simp only [xmod_sendblock, e, if_neg hlt, sendFrame, blockPayload]

/-- C1: `xmod_crc_update` equals the CRC-16/CCITT-FALSE step as the spec
words it (xor the byte into the high octet, then 8 rounds of shift-left,
xoring polynomial 0x1021 whenever the top bit was set before the shift) for
every 16-bit accumulator and 8-bit input; the classic check string
`123456789` yields 0x31C3 from initial accumulator 0; and the accumulator
is reset to 0 when a block starts (start-of-header byte accepted in
`TRANS_AWAIT`). -/
theorem claim_C1 :
    (∀ a b, a < 65536 → b < 256 → xmod_crc_update a b = crc_spec_step a b) ∧
    crcOfList 0 [49, 50, 51, 52, 53, 54, 55, 56, 57] = 0x31C3 ∧
    (∀ s : Session, s.state = TRANS_AWAIT → (handlebyte s X_SOH).1.current_crc = 0) := by
  refine ⟨crc_update_eq_spec, by decide, ?_⟩
  intro s hs
  obtain ⟨st, rc, cnt, crc, crcv, mp, bn, lsb, buf⟩ := s
  simp only at hs
  subst hs
  simp [handlebyte, X_SOH]

/-- C1 witness: the equality and the reset evaluated at concrete inputs. -/
theorem claim_C1_sat :
    xmod_crc_update 4660 171 = crc_spec_step 4660 171 ∧
    (handlebyte (downloadInit (fun _ => 0)) X_SOH).1.current_crc = 0 :=
  ⟨claim_C1.1 4660 171 (by norm_num) (by norm_num),
   claim_C1.2.2 (downloadInit (fun _ => 0)) rfl⟩

/-- C7: in state `TRANS_BLOCK2`, a byte that is not the one's complement of
the stored block number aborts the frame — the next state is `TRANS_ABORT`,
nothing is emitted, and no byte of the rest of the frame is written (the
session, its buffer included, is unchanged except for the state); a byte
that does equal the complement moves the machine to `TRANS_RUN`. -/
theorem claim_C7 (s : Session) (d : Nat) (rest : List Nat)
    (hs : s.state = TRANS_BLOCK2) :
    (s.blocknum ≠ 255 - d % 256 →
      xmod_receive s (d :: rest) = ({ s with state := TRANS_ABORT }, [])) ∧
    (s.blocknum = 255 - d % 256 → (handlebyte s d).1.state = TRANS_RUN) := by
  obtain ⟨st, rc, cnt, crc, crcv, mp, bn, lsb, buf⟩ := s
  simp only at hs ⊢
  subst hs
  constructor
  · intro hne
    cases rest <;> simp [xmod_receive, handlebyte, hne]
  · intro heq
    simp [handlebyte, heq]
    split <;> rfl

/-- C7 witness: a concrete complement mismatch in `TRANS_BLOCK2`. -/
theorem claim_C7_sat :
    (5 : Nat) ≠ 255 - 0 % 256 ∧
    xmod_receive { downloadInit (fun _ => 0) with state := TRANS_BLOCK2, blocknum := 5 }
        [0, 7, 7] =
      ({ { downloadInit (fun _ => 0) with state := TRANS_BLOCK2, blocknum := 5 } with
          state := TRANS_ABORT }, []) :=
  ⟨by norm_num,
   (claim_C7 { downloadInit (fun _ => 0) with state := TRANS_BLOCK2, blocknum := 5 }
      0 [7, 7] rfl).1 (by norm_num)⟩

/-- C9: `xmod_sendblock` is declared to return a `STATE` but has no return
statement; on the handshake byte `C` the upload loop stores that missing
value into the session state.  Modelling the unspecified value as a
parameter `u`, the post-handshake state equals `u` whatever `u` is — it is
not determined by the protocol logic; the block number is reset to 1 and
the emitted bytes are those of `xmod_sendblock` for block 1. -/
theorem claim_C9 (u : STATE) (s : Session) :
    (xmod_upload_step u s 67).1.state = u ∧
    (xmod_upload_step u s 67).1.blocknum = 1 ∧
    (xmod_upload_step u s 67).2 = (xmod_sendblock { s with blocknum := 1 }).2 := by
  simp [xmod_upload_step, xmod_sendblock]

/-- C4 counterexample: in a silent download session, after exactly 16
expired-timeout polling iterations the state is still `TRANS_AWAIT`, not
`TRANS_ABORT` as the claim asserts. -/
theorem claim_C4_cex :
    (xmod_download_silent 16 (downloadInit (fun _ => 0))).1.state ≠ TRANS_ABORT := by
  decide

/-- C4 (amended): `TRANS_ABORT` is entered as soon as the retry counter
exceeds `MAXRETRY` (15); since the counter starts at 0 and each silent
expired window increments it, the abort happens on the 17th consecutive
silent iteration, after 16 handshake re-emissions following the initial
attempt (not after 16 iterations and 15 retries as the claim counts). -/
theorem claim_C4 :
    (∀ s : Session, MAXRETRY < s.retrycount →
      (xmod_download_timeout_step s).1.state = TRANS_ABORT) ∧
    (xmod_download_silent 16 (downloadInit (fun _ => 0))).1.state = TRANS_AWAIT ∧
    (xmod_download_silent 16 (downloadInit (fun _ => 0))).1.retrycount = 16 ∧
    (xmod_download_silent 17 (downloadInit (fun _ => 0))).1.state = TRANS_ABORT ∧
    (xmod_download_silent 17 (downloadInit (fun _ => 0))).2 = List.replicate 16 67 := by
  refine ⟨?_, by decide, by decide, by decide, by decide⟩
  intro s h
  simp [xmod_download_timeout_step, h]

/-- C4 witness: the abort guard evaluated at a session with retry count 16. -/
theorem claim_C4_sat :
    MAXRETRY <
      (Session.retrycount { downloadInit (fun _ => 0) with retrycount := 16 }) ∧
    (xmod_download_timeout_step
        { downloadInit (fun _ => 0) with retrycount := 16 }).1.state = TRANS_ABORT :=
  ⟨by decide, claim_C4.1 { downloadInit (fun _ => 0) with retrycount := 16 } (by decide)⟩

/-- C6: in the upload loop with a block number in the valid range, receipt
of ACK advances the block number; when the advanced number exceeds the
number of 128-byte blocks the buffer holds (`XMOD_BUFFSIZE / 128`), the
end-of-transmission byte is emitted and the session ends in `TRANS_END`;
otherwise the next block's frame is sent; and any inbound byte other than
`C` (67) or ACK triggers an immediate resend of the current block. -/
theorem claim_C6 (u : STATE) (s : Session) (d : Nat)
    (hb1 : 1 ≤ s.blocknum) (hb2 : s.blocknum ≤ XMOD_BUFFSIZE / 128) :
    (d % 256 = X_ACK → s.blocknum = XMOD_BUFFSIZE / 128 →
      xmod_upload_step u s d =
        ({ s with blocknum := s.blocknum + 1, state := TRANS_END }, [X_EOT])) ∧
    (d % 256 = X_ACK → s.blocknum < XMOD_BUFFSIZE / 128 →
      (xmod_upload_step u s d).1.state = s.state ∧
      (xmod_upload_step u s d).1.blocknum = s.blocknum + 1 ∧
      (xmod_upload_step u s d).2 = sendFrame s.buffer (s.blocknum + 1)) ∧
    (d % 256 ≠ 67 → d % 256 ≠ X_ACK →
      (xmod_upload_step u s d).1.state = s.state ∧
      (xmod_upload_step u s d).1.blocknum = s.blocknum ∧
      (xmod_upload_step u s d).2 = sendFrame s.buffer s.blocknum) := by
  obtain ⟨st, rc, cnt, crc, crcv, mp, bn, lsb, buf⟩ := s
  simp only at hb1 hb2 ⊢
  refine ⟨?_, ?_, ?_⟩
  · intro hack hlast
    have h2 : bn = 2 := by simpa [XMOD_BUFFSIZE] using hlast
    subst h2
    simp only [xmod_upload_step, hack, X_ACK, XMOD_BUFFSIZE]
    norm_num
  · intro hack hlt
    have h1 : bn = 1 := by
      simp only [XMOD_BUFFSIZE] at hlt
      omega
    subst h1
    have hsend := sendblock_frame ⟨st, rc, cnt, crc, crcv, mp, 2, lsb, buf⟩ (by simp)
      (by simp [XMOD_BUFFSIZE])
    simp only [xmod_upload_step, hack, X_ACK, XMOD_BUFFSIZE]
    norm_num
    rw [hsend]
    exact ⟨rfl, rfl, rfl⟩
  · intro hnc hna
    have hsend := sendblock_frame ⟨st, rc, cnt, crc, crcv, mp, bn, lsb, buf⟩ hb1 hb2
    simp only [xmod_upload_step, if_neg hnc, if_neg hna]
    rw [hsend]
    exact ⟨rfl, rfl, rfl⟩

/-- C6 witness: the terminating ACK evaluated at block number 2. -/
theorem claim_C6_sat :
    (6 : Nat) % 256 = X_ACK ∧
    xmod_upload_step TRANS_AWAIT
        { downloadInit (fun _ => 0) with blocknum := 2 } 6 =
      ({ { downloadInit (fun _ => 0) with blocknum := 2 } with
          blocknum := 2 + 1, state := TRANS_END }, [X_EOT]) :=
  ⟨by decide,
   (claim_C6 TRANS_AWAIT { downloadInit (fun _ => 0) with blocknum := 2 } 6
      (by decide) (by decide)).1 (by decide) (by decide)⟩

/-- C8: the duplicate-block rewind has no lower bound: a fresh download
session (cursor 0, last committed block 0) that receives a header with
block number 0 and complement byte 255 wraps the 16-bit cursor to 65408,
and the next payload byte is stored at index 65408, far beyond the
capacity `XMOD_BUFFSIZE`. -/
theorem claim_C8 (buf : Nat → Nat) (b : Nat) :
    (xmod_receive (downloadInit buf) [X_SOH, 0, 255 - 0]).1.mempos = 65408 ∧
    (xmod_receive (downloadInit buf) [X_SOH, 0, 255 - 0]).1.state = TRANS_RUN ∧
    XMOD_BUFFSIZE ≤ 65408 ∧
    (handlebyte (xmod_receive (downloadInit buf) [X_SOH, 0, 255 - 0]).1 b).1.buffer 65408
      = b % 256 := by
  rw [receive_header (downloadInit buf) 0 rfl (by norm_num)]
  simp [downloadInit, handlebyte, XMOD_BUFFSIZE]

lemma crc_zeros : ∀ k, crcOfList 0 (List.replicate k 0) = 0 := by
  intro k
  induction k with
  | zero => rfl
  | succ k ih =>
    have h0 : xmod_crc_update 0 0 = 0 := by decide
    simpa [crcOfList, List.replicate_succ, List.foldl_cons, h0] using ih

/-- C10: the receive path applies no bound or circular wrap to the write
cursor — in `TRANS_RUN` each byte is stored at the raw cursor position,
wherever it points; concretely, a session that commits blocks 1 and 2
(exhausting the capacity `XMOD_BUFFSIZE = 256`) and then starts block 3
stores that block's next payload byte at index 256, at/beyond the capacity. -/
theorem claim_C10 :
    (∀ (s : Session) (b : Nat), s.state = TRANS_RUN →
      (handlebyte s b).1.buffer s.mempos = b % 256 ∧
      (handlebyte s b).1.mempos = (s.mempos + 1) % 65536) ∧
    ((xmod_receive (downloadInit (fun _ => 0))
        (frameBytes 1 (List.replicate 128 0) 0 0 ++
          (frameBytes 2 (List.replicate 128 0) 0 0 ++ [X_SOH, 3, 255 - 3]))).1.mempos
      = 256 ∧
    (xmod_receive (downloadInit (fun _ => 0))
        (frameBytes 1 (List.replicate 128 0) 0 0 ++
          (frameBytes 2 (List.replicate 128 0) 0 0 ++ [X_SOH, 3, 255 - 3]))).1.state
      = TRANS_RUN ∧
    XMOD_BUFFSIZE ≤ 256) := by
  have hcrc : (0 : Nat) * 256 ||| 0 = crcOfList 0 (List.replicate 128 0) := by
    rw [crc_zeros 128]
    decide
  constructor
  · intro s b hs
    obtain ⟨st, rc, cnt, crc, crcv, mp, bn, lsb, buf⟩ := s
    simp only at hs ⊢
    subst hs
    by_cases h128 : cnt + 1 = 128 <;> simp [handlebyte, h128]
  · rw [xmod_receive_append,
        receive_goodframe (downloadInit (fun _ => 0)) 1 0 0 (List.replicate 128 0) rfl
          (by norm_num [downloadInit]) (by norm_num) (by simp) (by decide)
          (by norm_num) (by norm_num) hcrc]
    norm_num [downloadInit]
    rw [xmod_receive_append,
        receive_goodframe
          ⟨TRANS_AWAIT, 0, 128, crcOfList 0 (List.replicate 128 0),
            crcOfList 0 (List.replicate 128 0), 128, 1, 1,
            writeBytes (fun _ => 0) 0 (List.replicate 128 0)⟩
          2 0 0 (List.replicate 128 0) rfl (by norm_num) (by norm_num) (by simp)
          (by norm_num) (by norm_num) (by norm_num) hcrc]
    norm_num
    rw [receive_header
          ⟨TRANS_AWAIT, 0, 128, crcOfList 0 (List.replicate 128 0),
            crcOfList 0 (List.replicate 128 0), 256, 2, 2,
            writeBytes (writeBytes (fun _ => 0) 0 (List.replicate 128 0)) 128
              (List.replicate 128 0)⟩
          3 rfl (by norm_num)]
    norm_num [XMOD_BUFFSIZE]

/-- C10 witness: the unbounded store evaluated at a cursor already past the
capacity. -/
theorem claim_C10_sat :
    (handlebyte { downloadInit (fun _ => 0) with state := TRANS_RUN, mempos := 300 }
        9).1.buffer 300 = 9 % 256 ∧
    (handlebyte { downloadInit (fun _ => 0) with state := TRANS_RUN, mempos := 300 }
        9).1.mempos = (300 + 1) % 65536 :=
  claim_C10.1 { downloadInit (fun _ => 0) with state := TRANS_RUN, mempos := 300 } 9 rfl

/-- C2: a frame for a fresh block `n` whose in-band CRC pair does not match
the computed accumulator yields NAK, leaves the cursor net-unchanged (the
128 payload stores are undone by the rewind), leaves the last-committed
block unchanged and returns to `TRANS_AWAIT`; a subsequent retransmission
of block `n` with matching CRC commits exactly once: ACK, cursor
net-advanced by 128, last committed block set to `n`. -/
theorem claim_C2 (s : Session) (n hi1 lo1 hi2 lo2 : Nat)
    (payload1 payload2 : List Nat)
    (hs : s.state = TRANS_AWAIT) (hm : s.mempos + 128 < 65536) (hn : n < 256)
    (hdup : n ≠ s.last_succeeded_block)
    (hlen1 : payload1.length = 128) (hhi1 : hi1 < 256) (hlo1 : lo1 < 256)
    (hbad : hi1 * 256 ||| lo1 ≠ crcOfList 0 payload1)
    (hlen2 : payload2.length = 128) (hhi2 : hi2 < 256) (hlo2 : lo2 < 256)
    (hgood : hi2 * 256 ||| lo2 = crcOfList 0 payload2) :
    (xmod_receive s (frameBytes n payload1 hi1 lo1)).2 = [X_NAK] ∧
    (xmod_receive s (frameBytes n payload1 hi1 lo1)).1.state = TRANS_AWAIT ∧
    (xmod_receive s (frameBytes n payload1 hi1 lo1)).1.mempos = s.mempos ∧
    (xmod_receive s (frameBytes n payload1 hi1 lo1)).1.last_succeeded_block
      = s.last_succeeded_block ∧
    (xmod_receive (xmod_receive s (frameBytes n payload1 hi1 lo1)).1
        (frameBytes n payload2 hi2 lo2)).2 = [X_ACK] ∧
    (xmod_receive (xmod_receive s (frameBytes n payload1 hi1 lo1)).1
        (frameBytes n payload2 hi2 lo2)).1.mempos = s.mempos + 128 ∧
    (xmod_receive (xmod_receive s (frameBytes n payload1 hi1 lo1)).1
        (frameBytes n payload2 hi2 lo2)).1.last_succeeded_block = n := by
  obtain ⟨st, rc, cnt, crc, crcv, mp, bn, lsb, buf⟩ := s
  simp only at hs hm hdup ⊢
  subst hs
  rw [receive_badframe _ n hi1 lo1 payload1 rfl (by simp; omega) hn hlen1
      (by simpa using hdup) hhi1 hlo1 hbad]
  dsimp only
  rw [receive_goodframe
        ⟨TRANS_AWAIT, rc, 128, crcOfList 0 payload1, hi1 * 256 ||| lo1, mp, n, lsb,
          writeBytes buf mp payload1⟩
        n hi2 lo2 payload2 rfl (by simp; omega) hn hlen2 (by simpa using hdup)
        hhi2 hlo2 hgood]
  refine ⟨rfl, rfl, rfl, rfl, rfl, ?_, rfl⟩
  simp
  omega

/-- C2 witness: a corrupted then corrected block 1 on a fresh session. -/
theorem claim_C2_sat :
    (xmod_receive (xmod_receive (downloadInit (fun _ => 0))
        (frameBytes 1 (List.replicate 128 0) 0 1)).1
      (frameBytes 1 (List.replicate 128 0) 0 0)).2 = [X_ACK] ∧
    (xmod_receive (xmod_receive (downloadInit (fun _ => 0))
        (frameBytes 1 (List.replicate 128 0) 0 1)).1
      (frameBytes 1 (List.replicate 128 0) 0 0)).1.mempos = 0 + 128 ∧
    (xmod_receive (xmod_receive (downloadInit (fun _ => 0))
        (frameBytes 1 (List.replicate 128 0) 0 1)).1
      (frameBytes 1 (List.replicate 128 0) 0 0)).1.last_succeeded_block = 1 :=
  (claim_C2 (downloadInit (fun _ => 0)) 1 0 1 0 0 (List.replicate 128 0)
      (List.replicate 128 0) rfl (by decide) (by decide) (by decide)
      (by simp) (by decide) (by decide) (by rw [crc_zeros 128]; decide)
      (by simp) (by decide) (by decide) (by rw [crc_zeros 128]; decide)).2.2.2.2

/-- C3: a complete valid frame whose block number equals the last committed
block is handled idempotently: the `TRANS_BLOCK2` step rewinds the cursor
by 128, the payload overwrites the previous slot (final slot content equals
the retransmitted payload), ACK is emitted again, and the cursor ends where
it started (not double-advanced). -/
theorem claim_C3 (s : Session) (n hi lo : Nat) (payload : List Nat)
    (hs : s.state = TRANS_AWAIT) (hm1 : 128 ≤ s.mempos) (hm2 : s.mempos < 65536)
    (hn : n < 256) (hdup : n = s.last_succeeded_block)
    (hlen : payload.length = 128) (hpb : ∀ b ∈ payload, b < 256)
    (hhi : hi < 256) (hlo : lo < 256)
    (hcrc : hi * 256 ||| lo = crcOfList 0 payload) :
    (xmod_receive s [X_SOH, n, 255 - n]).1.mempos = s.mempos - 128 ∧
    (xmod_receive s (frameBytes n payload hi lo)).2 = [X_ACK] ∧
    (xmod_receive s (frameBytes n payload hi lo)).1.state = TRANS_AWAIT ∧
    (xmod_receive s (frameBytes n payload hi lo)).1.mempos = s.mempos ∧
    (∀ p, p < 128 →
      (xmod_receive s (frameBytes n payload hi lo)).1.buffer (s.mempos - 128 + p)
        = payload.getD p 0) := by
  obtain ⟨st, rc, cnt, crc, crcv, mp, bn, lsb, buf⟩ := s
  simp only at hs hm1 hm2 hdup ⊢
  subst hs
  constructor
  · rw [receive_header _ n rfl hn]
    simp only [if_pos hdup]
    omega
  rw [receive_dupframe _ n hi lo payload rfl hm1 hm2 hn hlen hdup hhi hlo hcrc]
  refine ⟨rfl, rfl, rfl, ?_⟩
  intro p hp
  show writeBytes buf (mp - 128) payload (mp - 128 + p) = payload.getD p 0
  rw [writeBytes_get payload _ _ _ (by omega) (by omega) (by omega)]
  rw [show mp - 128 + p - (mp - 128) = p from by omega]
  have hplen : p < payload.length := by omega
  have hlt : payload.getD p 0 < 256 := by
    have : payload.getD p 0 = payload[p] := by
      simp [List.getD_eq_getElem?_getD, List.getElem?_eq_getElem hplen]
    rw [this]
    exact hpb _ (List.getElem_mem hplen)
  omega

/-- C3 witness: a duplicate of committed block 1 at cursor 128. -/
theorem claim_C3_sat :
    (xmod_receive
        { downloadInit (fun _ => 0) with mempos := 128, last_succeeded_block := 1 }
        (frameBytes 1 (List.replicate 128 0) 0 0)).2 = [X_ACK] ∧
    (xmod_receive
        { downloadInit (fun _ => 0) with mempos := 128, last_succeeded_block := 1 }
        (frameBytes 1 (List.replicate 128 0) 0 0)).1.mempos = 128 :=
  ⟨((claim_C3 { downloadInit (fun _ => 0) with mempos := 128, last_succeeded_block := 1 }
      1 0 0 (List.replicate 128 0) rfl (by decide) (by decide) (by decide) (by decide)
      (by simp) (by intro b hb; simp at hb; omega) (by decide) (by decide)
      (by rw [crc_zeros 128]; decide)).2.1),
   ((claim_C3 { downloadInit (fun _ => 0) with mempos := 128, last_succeeded_block := 1 }
      1 0 0 (List.replicate 128 0) rfl (by decide) (by decide) (by decide) (by decide)
      (by simp) (by intro b hb; simp at hb; omega) (by decide) (by decide)
      (by rw [crc_zeros 128]; decide)).2.2.2.1)⟩

/-- C5 (amended): the receive-then-transmit round trip reproduces the 128
payload bytes when the session's write cursor sits at the block's own slot,
`128*(n-1)`, and that slot lies inside the buffer capacity (the in-order
case); without that precondition the transmit driver reads a different
slot than the one the receive path wrote. -/
theorem claim_C5 (s : Session) (n hi lo : Nat) (payload : List Nat)
    (hs : s.state = TRANS_AWAIT) (hn1 : 1 ≤ n) (hn : n < 256)
    (hmem : s.mempos = 128 * (n - 1)) (hcap : 128 * n ≤ XMOD_BUFFSIZE)
    (hdup : n ≠ s.last_succeeded_block)
    (hlen : payload.length = 128) (hpb : ∀ b ∈ payload, b < 256)
    (hhi : hi < 256) (hlo : lo < 256)
    (hcrc : hi * 256 ||| lo = crcOfList 0 payload) :
    ((xmod_sendblock (xmod_receive s (frameBytes n payload hi lo)).1).2.drop 3).take 128
      = payload := by
  obtain ⟨st, rc, cnt, crc, crcv, mp, bn, lsb, buf⟩ := s
  simp only at hs hmem hdup ⊢
  subst hs
  subst hmem
  have hn2 : n ≤ 2 := by
    simp only [XMOD_BUFFSIZE] at hcap
    omega
  rw [receive_goodframe _ n hi lo payload rfl (by simp; omega) hn hlen
      (by simpa using hdup) hhi hlo hcrc]
  dsimp only
  simp only [xmod_sendblock]
  rw [show (128 * n + 65408) % 65536 = 128 * (n - 1) from by omega]
  rw [if_neg (by simp only [XMOD_BUFFSIZE]; omega)]
  have hmap : (List.range 128).map
      (fun p => writeBytes buf (128 * (n - 1)) payload (p + 128 * (n - 1)) % 256)
      = payload := by
    have h1 : ∀ p ∈ List.range 128,
        writeBytes buf (128 * (n - 1)) payload (p + 128 * (n - 1)) % 256
          = payload.getD p 0 := by
      intro p hp
      rw [List.mem_range] at hp
      rw [writeBytes_get payload _ _ _ (by omega) (by omega) (by omega)]
      rw [show p + 128 * (n - 1) - 128 * (n - 1) = p from by omega]
      have hplen : p < payload.length := by omega
      have hlt : payload.getD p 0 < 256 := by
        have he : payload.getD p 0 = payload[p] := by
          simp [List.getD_eq_getElem?_getD, List.getElem?_eq_getElem hplen]
        rw [he]
        exact hpb _ (List.getElem_mem hplen)
      omega
    rw [List.map_congr_left h1, map_range_getD payload 128 hlen]
  rw [hmap]
  simp [List.take_left' hlen]

/-- C5 witness: the in-order round trip for block 1 on a fresh session. -/
theorem claim_C5_sat :
    ((xmod_sendblock (xmod_receive (downloadInit (fun _ => 0))
        (frameBytes 1 (List.replicate 128 0) 0 0)).1).2.drop 3).take 128
      = List.replicate 128 0 :=
  claim_C5 (downloadInit (fun _ => 0)) 1 0 0 (List.replicate 128 0) rfl
    (by decide) (by decide) (by decide) (by decide) (by decide) (by simp)
    (by intro b hb; simp at hb; omega) (by decide) (by decide)
    (by rw [crc_zeros 128]; decide)

/-- C5 counterexample: for a valid frame carrying block number 2 received
by a fresh session (cursor 0), the transmit driver for block 2 reads slot
`128..255`, which the receive path never wrote, so the round trip does not
reproduce the payload: the original claim's universal statement is false. -/
theorem claim_C5_cex :
    ¬ (((xmod_sendblock (xmod_receive (downloadInit (fun _ => 7))
          (frameBytes 2 (List.replicate 128 0) 0 0)).1).2.drop 3).take 128
        = List.replicate 128 0) := by
  rw [receive_goodframe (downloadInit (fun _ => 7)) 2 0 0 (List.replicate 128 0) rfl
      (by decide) (by decide) (by simp) (by decide) (by decide) (by decide)
      (by rw [crc_zeros 128]; decide)]
  dsimp only [downloadInit]
  simp only [xmod_sendblock]
  norm_num [XMOD_BUFFSIZE]
  have hmap : (List.range 128).map
      (fun p => writeBytes (fun _ => 7) 0 (List.replicate 128 0) (p + 128) % 256)
      = List.replicate 128 7 := by
    have h1 : ∀ p ∈ List.range 128,
        writeBytes (fun _ => 7) 0 (List.replicate 128 0) (p + 128) % 256 = 7 := by
      intro p hp
      rw [writeBytes_out (List.replicate 128 0) _ _ _ (by simp) (by simp)]
    rw [List.map_congr_left h1]
    simp [List.eq_replicate_iff]
  rw [hmap]
  decide
